import Mathlib

/-
Verification of the Aerosafers LRI backend (src/back/back.py).

The risk scorer works on Python floats; we embed it in exact rational
arithmetic (ℚ).  Python operations that can raise ZeroDivisionError are
modelled by returning an error value in Except: the code wraps the whole
scoring computation in a try/except that re-raises a generic HTTP 500
failure, which we model as Except.error ().  Python round(x, 2) rounds
half to even; roundHalfEven below mirrors that on exact rationals.
-/

namespace Aerosafers

/- Constants from back.py lines 37-39. -/

def W_W : ℚ := 45 / 100

def W_N : ℚ := 35 / 100

def W_T : ℚ := 20 / 100

def AL_H : ℚ := 40

def AL_V : ℚ := 50

def TAU_RED : ℚ := 60

def TAU_YELLOW : ℚ := 80

def TAU_BLUE : ℚ := 90

/- The measurement record consumed by calculate_lri: the dict keys read via
data.get in back.py lines 51-75, with all fields present. -/

structure Record where
  actual_visibility : ℚ
  required_visibility : ℚ
  alpha_cloud : ℚ
  HPL : ℚ
  VPL : ℚ
  alpha_terrain : ℚ
  r_och_neg : ℚ
  CTBT : ℚ
  delta_sigma_0 : ℚ
  core_percent : ℚ
  deriving DecidableEq

/- The dict returned by calculate_lri (back.py lines 93-100). -/

structure ScoreResult where
  LRI : ℚ
  Grade : String
  W_score : ℚ
  N_score : ℚ
  T_score : ℚ
  HardStop : Bool
  deriving DecidableEq

/- Python round to nearest integer, ties to even. -/

def roundHalfEven (q : ℚ) : ℤ :=
  let f := ⌊q⌋
  let r := q - f
  if r < 1/2 then f
  else if 1/2 < r then f + 1
  else if f % 2 = 0 then f else f + 1

/- Python round(x, 2). -/

def round2 (q : ℚ) : ℚ := (roundHalfEven (q * 100) : ℚ) / 100

/- Sub-score W (back.py line 54). -/

def Wval (d : Record) : ℚ :=
  100 * min 1 (d.actual_visibility / d.required_visibility) * (1 - d.alpha_cloud)

/- Sub-score N (back.py line 59). -/

def Nval (d : Record) : ℚ :=
  100 - (50 * max 0 ((d.HPL - AL_H) / 20) + 50 * max 0 ((d.VPL - AL_V) / 20))

/- Sub-score T (back.py line 64). -/

def Tval (d : Record) : ℚ :=
  100 * W_T * (1 - d.alpha_terrain) - 40 * d.r_och_neg

/- T_norm (back.py line 67): T / W_T if W_T != 0 else 0. -/

def Tnorm (d : Record) : ℚ :=
  if W_T ≠ 0 then Tval d / W_T else 0

/- T_safe (back.py line 68). -/

def Tsafe (d : Record) : ℚ := max 5 (Tnorm d)

/- The harmonic denominator of back.py line 69. -/

def Sval (d : Record) : ℚ := W_W / Wval d + W_N / Nval d + W_T / Tsafe d

/- Unclamped LRI (back.py line 69). -/

def lriRaw (d : Record) : ℚ := 100 / Sval d

/- Final LRI (back.py line 70): round(min(100, LRI), 2). -/

def lriFinal (d : Record) : ℚ := round2 (min 100 (lriRaw d))

/- Hard stop condition (back.py lines 79-81). -/

def isHardStop (d : Record) : Bool :=
  decide (d.CTBT < 235) ||
    (decide (AL_H < d.HPL) && decide (AL_V < d.VPL)) ||
    (decide ((3 : ℚ) < d.delta_sigma_0) && decide ((30 : ℚ) ≤ d.core_percent))

/- Grade branches (back.py lines 84-91). -/

def gradeOf (hs : Bool) (lri : ℚ) : String :=
  if hs then "RED (HARD STOP)"
  else if lri < TAU_RED then "YELLOW (SEVERE)"
  else if lri < TAU_YELLOW then "BLUE (WARNING)"
  else "GREEN (VERY GOOD)"

/- calculate_lri (back.py lines 45-102).  The guards are exactly Python's
ZeroDivisionError sites: p / p_req at line 54 (required_visibility = 0),
W_W / W and W_N / N at line 69 (a zero sub-score), and 100 / (...) at
line 69 when the harmonic denominator itself is zero.  T / W_T at line 67
is guarded in the source and W_T / T_safe cannot fail since T_safe >= 5.
Any such exception reaches the except handler at line 101 and is re-raised
as a generic internal failure with no fallback value. -/

def calculate_lri (d : Record) : Except Unit ScoreResult :=
  if d.required_visibility = 0 then Except.error ()
  else if Wval d = 0 then Except.error ()
  else if Nval d = 0 then Except.error ()
  else if Sval d = 0 then Except.error ()
  else Except.ok
    { LRI := lriFinal d
      Grade := gradeOf (isHardStop d) (lriFinal d)
      W_score := round2 (Wval d)
      N_score := round2 (Nval d)
      T_score := round2 (Tval d)
      HardStop := isHardStop d }

/- Observable LRI of a scoring outcome (none when the scorer raised). -/

def okLRI : Except Unit ScoreResult → Option ℚ
  | Except.ok r => some r.LRI
  | Except.error _ => none

/-
Coordinate-seeded data simulator, _generate_data_from_coords
(back.py lines 104-158).  The Python stdlib PRNG (random.Random) and the
numpy transcendentals are external library code; we abstract them as an
environment of deterministic functions: draw seed k is the value of the
k-th random() style draw of a generator seeded with seed, choiceAt seed k
the value picked by the k-th call when it is random.choice, sinF and cosF
stand for np.sin and np.cos.  Each branch of the simulator consumes the
same number of draws, so indexing draws by call position is faithful.
-/

structure Params where
  uam_type : String
  wing_type : String

structure SimEnv where
  sinF : ℚ → ℚ
  cosF : ℚ → ℚ
  draw : ℤ → ℕ → ℚ
  choiceAt : ℤ → ℕ → ℚ

/- Python int() truncation toward zero. -/

def intTrunc (q : ℚ) : ℤ := if 0 ≤ q then ⌊q⌋ else -⌊-q⌋

/- seed = int(lat * 1000) + int(lon * 1000)  (back.py line 111). -/

def seedOf (lat lon : ℚ) : ℤ := intTrunc (lat * 1000) + intTrunc (lon * 1000)

/- random.uniform(a, b) driven by a unit draw u. -/

def pyUniform (u a b : ℚ) : ℚ := a + (b - a) * u

/- np.interp(x, [x0, x1], [y0, y1]) with clamping outside the range. -/

def npInterp (x x0 x1 y0 y1 : ℚ) : ℚ :=
  if x ≤ x0 then y0
  else if x1 ≤ x then y1
  else y0 + (x - x0) * (y1 - y0) / (x1 - x0)

/- _generate_data_from_coords (back.py lines 104-158). -/

def generateData (env : SimEnv) (lat lon : ℚ) (params : Params) : Record :=
  let seed := seedOf lat lon
  let weather_factor := (env.sinF (lat / 10) + env.cosF (lon / 10)) / 2
  let alpha_cloud := npInterp weather_factor (-1) 1 (5/100) (7/10)
  let ctbt : ℚ := if 34 < lat ∧ lat < 36 ∧ 126 < lon ∧ lon < 128 then 230 else 273
  let nav_roll := env.draw seed 0
  let hpl :=
    if nav_roll < 5/100 then AL_H + pyUniform (env.draw seed 1) 1 15
    else if nav_roll < 25/100 then AL_H - pyUniform (env.draw seed 1) 10 20
    else pyUniform (env.draw seed 1) 10 (AL_H - 5)
  let vpl :=
    if nav_roll < 5/100 then AL_V + pyUniform (env.draw seed 2) 1 10
    else if nav_roll < 25/100 then AL_V - pyUniform (env.draw seed 2) 10 20
    else pyUniform (env.draw seed 2) 10 (AL_V - 5)
  let alpha_terrain0 :=
    if 257/2 < lon then pyUniform (env.draw seed 3) (1/10) (3/10)
    else pyUniform (env.draw seed 3) (1/100) (5/100)
  let r_och_neg :=
    if 257/2 < lon then pyUniform (env.draw seed 4) (5/100) (1/10)
    else pyUniform (env.draw seed 4) 0 (1/100)
  let alpha_terrain :=
    if params.wing_type = "rotary" then alpha_terrain0 * (12/10) else alpha_terrain0
  { actual_visibility := pyUniform (env.draw seed 5) 25 60
    required_visibility := 30
    alpha_cloud := alpha_cloud
    HPL := hpl
    VPL := vpl
    alpha_terrain := alpha_terrain
    r_och_neg := r_och_neg
    CTBT := ctbt
    delta_sigma_0 := pyUniform (env.draw seed 6) 0 4
    core_percent := env.choiceAt seed 7 }

/- The scoring request pipeline of calculate_lri_endpoint
(back.py lines 232-251): simulate a record for the coordinates, then score
it. -/

def scoreRequest (env : SimEnv) (lat lon : ℚ) (uam wing : String) :
    Except Unit ScoreResult :=
  calculate_lri (generateData env lat lon ⟨uam, wing⟩)

/-
Safer-spot search of get_map (back.py lines 441-479).  The loop scans the
3x3 grid of offsets (i, j) in {-1, 0, 1}^2 around the center, skipping
(0, 0), in row-major order; each neighbor is scored by simulating data at
(lat + i*0.2, lon + j*0.2) and running calculate_lri.  We abstract that
scoring pipeline as a function from the neighbor coordinates to its
ScoreResult.  The accumulator is (best_spot, highest_lri), started at
(None, lri), and a neighbor replaces it only when it is not a hard stop
and its LRI strictly exceeds highest_lri.
-/

structure Spot where
  lat : ℚ
  lon : ℚ
  lri : ℚ
  deriving DecidableEq

def searchOffsets : List (ℤ × ℤ) :=
  [(-1, -1), (-1, 0), (-1, 1), (0, -1), (0, 1), (1, -1), (1, 0), (1, 1)]

def nbrLat (lat : ℚ) (ij : ℤ × ℤ) : ℚ := lat + (ij.1 : ℚ) * (2/10)

def nbrLon (lon : ℚ) (ij : ℤ × ℤ) : ℚ := lon + (ij.2 : ℚ) * (2/10)

def scoreAt (score : ℚ → ℚ → ScoreResult) (lat lon : ℚ) (ij : ℤ × ℤ) :
    ScoreResult :=
  score (nbrLat lat ij) (nbrLon lon ij)

def spotAt (score : ℚ → ℚ → ScoreResult) (lat lon : ℚ) (ij : ℤ × ℤ) : Spot :=
  { lat := nbrLat lat ij
    lon := nbrLon lon ij
    lri := (scoreAt score lat lon ij).LRI }

def saferStep (score : ℚ → ℚ → ScoreResult) (lat lon : ℚ)
    (acc : Option Spot × ℚ) (ij : ℤ × ℤ) : Option Spot × ℚ :=
  let r := scoreAt score lat lon ij
  if r.HardStop = false ∧ acc.2 < r.LRI then
    (some (spotAt score lat lon ij), r.LRI)
  else acc

def findSaferSpot (score : ℚ → ℚ → ScoreResult) (lat lon lri : ℚ) :
    Option Spot :=
  (searchOffsets.foldl (saferStep score lat lon) (none, lri)).1

/-
Grid decay (get_lri_grid, back.py lines 276-323, and its inlined clone in
get_map, back.py lines 371-406).  The cell values use np.sqrt, so this
part is embedded over the reals.
-/

structure GridCell where
  lri : ℝ
  polygon : List (ℝ × ℝ)

noncomputable def centerOffset (g : ℕ) : ℝ := ((g : ℝ) - 1) / 2

/- The body of the loop in get_lri_grid for the cell at index (i, j). -/

noncomputable def gridCellOf (g : ℕ) (cellSize lat lon lri : ℝ) (i j : ℕ) :
    GridCell :=
  let c := centerOffset g
  let dist_x := (i : ℝ) - c
  let dist_y := (j : ℝ) - c
  let distance := Real.sqrt (dist_x ^ 2 + dist_y ^ 2)
  let max_dist := Real.sqrt (2 * c ^ 2)
  let decay_factor := max 0 (1 - distance / max_dist)
  let cell_lri := lri * decay_factor
  let min_lon := lon + ((j : ℝ) - c) * cellSize - cellSize / 2
  let min_lat := lat + ((i : ℝ) - c) * cellSize - cellSize / 2
  let max_lon := min_lon + cellSize
  let max_lat := min_lat + cellSize
  { lri := cell_lri
    polygon := [(min_lon, min_lat), (max_lon, min_lat), (max_lon, max_lat),
      (min_lon, max_lat), (min_lon, min_lat)] }

/- The body of the inlined choropleth loop in get_map for the cell at
index (i, j), transcribed separately from back.py lines 379-404. -/

noncomputable def mapCellOf (g : ℕ) (cellSize lat lon lri : ℝ) (i j : ℕ) :
    GridCell :=
  let c := centerOffset g
  let dist_x := (i : ℝ) - c
  let dist_y := (j : ℝ) - c
  let distance := Real.sqrt (dist_x ^ 2 + dist_y ^ 2)
  let max_dist := Real.sqrt (2 * c ^ 2)
  let decay_factor := max 0 (1 - distance / max_dist)
  let cell_lri := lri * decay_factor
  let min_lon := lon + ((j : ℝ) - c) * cellSize - cellSize / 2
  let min_lat := lat + ((i : ℝ) - c) * cellSize - cellSize / 2
  let max_lon := min_lon + cellSize
  let max_lat := min_lat + cellSize
  { lri := cell_lri
    polygon := [(min_lon, min_lat), (max_lon, min_lat), (max_lon, max_lat),
      (min_lon, max_lat), (min_lon, min_lat)] }

/- The double loop of get_lri_grid (i outer, j inner over range(grid_size)). -/

noncomputable def gridFeatures (g : ℕ) (cellSize lat lon lri : ℝ) :
    List GridCell :=
  ((List.range g).map fun i => (List.range g).map fun j =>
    gridCellOf g cellSize lat lon lri i j).flatten

/- The double loop of the inlined choropleth in get_map. -/

noncomputable def mapFeatures (g : ℕ) (cellSize lat lon lri : ℝ) :
    List GridCell :=
  ((List.range g).map fun i => (List.range g).map fun j =>
    mapCellOf g cellSize lat lon lri i j).flatten

/- Hardcoded grid parameters: back.py lines 282-283 and 374-375. -/

def gridEndpointGridSize : ℕ := 11

noncomputable def gridEndpointCellSize : ℝ := 1/100

def mapGridSize : ℕ := 7

noncomputable def mapCellSize : ℝ := 1/100

/- Concrete records used to settle the claims. -/

def defaultRec : Record :=
  { actual_visibility := 50, required_visibility := 30, alpha_cloud := 1/10
    HPL := 35, VPL := 45, alpha_terrain := 1/20, r_och_neg := 0
    CTBT := 273, delta_sigma_0 := 0, core_percent := 0 }

/- The record of the end-to-end example in the spec (claim C5). -/

def exampleRec : Record :=
  { actual_visibility := 60, required_visibility := 30, alpha_cloud := 0
    HPL := 40, VPL := 50, alpha_terrain := 1/100, r_och_neg := 0
    CTBT := 273, delta_sigma_0 := 0, core_percent := 0 }

/- Negative visibility makes W negative and the final LRI negative
(claim C4): here W = -3, N = 100, T_safe = 95, LRI = -692.55. -/

def negVisRec : Record :=
  { actual_visibility := -1, required_visibility := 30, alpha_cloud := 1/10
    HPL := 35, VPL := 45, alpha_terrain := 1/20, r_och_neg := 0
    CTBT := 273, delta_sigma_0 := 0, core_percent := 0 }

/- Here W = -900/11, N = 100, T_safe = 100 and the harmonic denominator
0.45/W + 0.35/N + 0.20/T_safe is exactly 0, so line 69 of back.py raises
ZeroDivisionError although W and N are both nonzero (claims C3, C6). -/

def zeroDenRec : Record :=
  { actual_visibility := -9, required_visibility := 11, alpha_cloud := 0
    HPL := 35, VPL := 45, alpha_terrain := 0, r_och_neg := 0
    CTBT := 273, delta_sigma_0 := 0, core_percent := 0 }

def zeroDenRec2 : Record :=
  { actual_visibility := -18, required_visibility := 22, alpha_cloud := 0
    HPL := 35, VPL := 45, alpha_terrain := 0, r_och_neg := 0
    CTBT := 273, delta_sigma_0 := 0, core_percent := 0 }

/- required_visibility = 0 raises at line 54 of back.py (claim C6). -/

def zeroReqRec : Record :=
  { actual_visibility := 50, required_visibility := 0, alpha_cloud := 1/10
    HPL := 35, VPL := 45, alpha_terrain := 1/20, r_och_neg := 0
    CTBT := 273, delta_sigma_0 := 0, core_percent := 0 }

/- Only the horizontal protection limit is exceeded (claim C2). -/

def onlyHPLRec : Record :=
  { actual_visibility := 50, required_visibility := 30, alpha_cloud := 1/10
    HPL := 45, VPL := 50, alpha_terrain := 1/20, r_och_neg := 0
    CTBT := 273, delta_sigma_0 := 0, core_percent := 0 }

/- CTBT = 230 with otherwise benign fields (claim C2). -/

def ctbt230Rec : Record :=
  { actual_visibility := 50, required_visibility := 30, alpha_cloud := 1/10
    HPL := 35, VPL := 45, alpha_terrain := 1/20, r_och_neg := 0
    CTBT := 230, delta_sigma_0 := 0, core_percent := 0 }

/- A concrete neighborhood scoring for claim C8: every neighbor is a hard
stop except the one at offset (1, 0), which has grade-tier LRI 82, below
the center LRI of 85. -/

def cscore : ℚ → ℚ → ScoreResult := fun la lo =>
  if la = 2/10 ∧ lo = 0 then
    { LRI := 82, Grade := "GREEN (VERY GOOD)", W_score := 82, N_score := 82
      T_score := 82, HardStop := false }
  else
    { LRI := 50, Grade := "RED (HARD STOP)", W_score := 50, N_score := 50
      T_score := 50, HardStop := true }

/- A neighborhood where every neighbor scores LRI 90 without hard stop. -/

def wscore : ℚ → ℚ → ScoreResult := fun _ _ =>
  { LRI := 90, Grade := "GREEN (VERY GOOD)", W_score := 90, N_score := 90
    T_score := 90, HardStop := false }

/- Rounding lemmas. -/

lemma roundHalfEven_le {q : ℚ} {n : ℤ} (h : q ≤ (n : ℚ)) : roundHalfEven q ≤ n := by
  simp only [roundHalfEven]
  have hfl : ⌊q⌋ ≤ n := by
    have h0 := Int.floor_le_floor h
    rwa [Int.floor_intCast] at h0
  split_ifs with h1 h2 h3
  · exact hfl
  · have hq : (⌊q⌋ : ℚ) < (n : ℚ) := by
      have := Int.floor_le q
      linarith
    exact Int.add_one_le_iff.mpr (by exact_mod_cast hq)
  · exact hfl
  · have hq : (⌊q⌋ : ℚ) < (n : ℚ) := by
      have h4 : q - (⌊q⌋ : ℚ) = 1/2 := le_antisymm (not_lt.mp h2) (not_lt.mp h1)
      linarith
    exact Int.add_one_le_iff.mpr (by exact_mod_cast hq)

lemma roundHalfEven_nonneg {q : ℚ} (h : 0 ≤ q) : 0 ≤ roundHalfEven q := by
  simp only [roundHalfEven]
  have hfl : 0 ≤ ⌊q⌋ := Int.floor_nonneg.mpr h
  split_ifs <;> omega

lemma round2_le_100 {q : ℚ} (h : q ≤ 100) : round2 q ≤ 100 := by
  unfold round2
  have h1 : q * 100 ≤ ((10000 : ℤ) : ℚ) := by push_cast; linarith
  have h2 : roundHalfEven (q * 100) ≤ 10000 := roundHalfEven_le h1
  have h3 : ((roundHalfEven (q * 100) : ℤ) : ℚ) ≤ 10000 := by exact_mod_cast h2
  linarith

lemma round2_nonneg {q : ℚ} (h : 0 ≤ q) : 0 ≤ round2 q := by
  unfold round2
  have h1 : 0 ≤ roundHalfEven (q * 100) := roundHalfEven_nonneg (by linarith)
  have h2 : (0 : ℚ) ≤ ((roundHalfEven (q * 100) : ℤ) : ℚ) := by exact_mod_cast h1
  positivity

/- When the scorer returns a result, that result is exactly the record
built at back.py lines 93-100. -/

lemma calculate_lri_ok (d : Record) (r : ScoreResult)
    (h : calculate_lri d = Except.ok r) :
    r = { LRI := lriFinal d
          Grade := gradeOf (isHardStop d) (lriFinal d)
          W_score := round2 (Wval d)
          N_score := round2 (Nval d)
          T_score := round2 (Tval d)
          HardStop := isHardStop d } := by
  unfold calculate_lri at h
  split_ifs at h
  injection h with h
  exact h.symm

/-- C1: the grade returned by the scorer is the pure function gradeOf of
the pair (hard-stop flag, rounded LRI), evaluated with first-match
precedence: a true hard-stop flag yields RED (HARD STOP) whatever the LRI
is, otherwise LRI below 60 yields the severe tier, LRI below 80 the
warning tier, and LRI at least 80 the best tier; the boundaries are
half-open from below, so LRI exactly 60 is in the warning tier and LRI
exactly 80 in the best tier. -/
theorem grade_precedence :
    (∀ d r, calculate_lri d = Except.ok r → r.Grade = gradeOf r.HardStop r.LRI) ∧
    (∀ l : ℚ, gradeOf true l = "RED (HARD STOP)") ∧
    (∀ l : ℚ, l < 60 → gradeOf false l = "YELLOW (SEVERE)") ∧
    (∀ l : ℚ, 60 ≤ l → l < 80 → gradeOf false l = "BLUE (WARNING)") ∧
    (∀ l : ℚ, 80 ≤ l → gradeOf false l = "GREEN (VERY GOOD)") ∧
    gradeOf false 60 = "BLUE (WARNING)" ∧
    gradeOf false 80 = "GREEN (VERY GOOD)" ∧
    gradeOf true 100 = "RED (HARD STOP)" := by
  refine ⟨?_, ?_, ?_, ?_, ?_, ?_, ?_, rfl⟩
  · intro d r h
    rw [calculate_lri_ok d r h]
  · intro l
    rfl
  · intro l hl
    simp [gradeOf, TAU_RED, hl]
  · intro l h1 h2
    simp [gradeOf, TAU_RED, TAU_YELLOW, not_lt.mpr h1, h2]
  · intro l h1
    have h2 : (60 : ℚ) ≤ l := le_trans (by norm_num) h1
    simp [gradeOf, TAU_RED, TAU_YELLOW, not_lt.mpr h1, not_lt.mpr h2]
  · norm_num [gradeOf, TAU_RED, TAU_YELLOW]
  · norm_num [gradeOf, TAU_RED, TAU_YELLOW]

/-- C1 witness: the theorem applied at LRI 59 without hard stop gives the
severe tier. -/
theorem grade_precedence_witness : gradeOf false 59 = "YELLOW (SEVERE)" :=
  grade_precedence.2.2.1 59 (by norm_num)

/-- C2: the hard-stop flag returned by the scorer is true exactly when
CTBT < 235, or both HPL > 40 and VPL > 50, or both delta_sigma_0 > 3 and
core_percent >= 30; a record with only HPL exceeded (and the other two
conditions failing) does not hard-stop; a record with CTBT = 230 hard
stops and is graded RED (HARD STOP) regardless of its LRI. -/
theorem hard_stop_characterization :
    (∀ d r, calculate_lri d = Except.ok r →
      (r.HardStop = true ↔
        (d.CTBT < 235 ∨ ((40 : ℚ) < d.HPL ∧ (50 : ℚ) < d.VPL) ∨
          ((3 : ℚ) < d.delta_sigma_0 ∧ (30 : ℚ) ≤ d.core_percent)))) ∧
    (∀ d : Record, (40 : ℚ) < d.HPL → d.VPL ≤ (50 : ℚ) → (235 : ℚ) ≤ d.CTBT →
      ¬((3 : ℚ) < d.delta_sigma_0 ∧ (30 : ℚ) ≤ d.core_percent) →
      isHardStop d = false) ∧
    (∀ d r, d.CTBT = 230 → calculate_lri d = Except.ok r →
      r.HardStop = true ∧ r.Grade = "RED (HARD STOP)") := by
  refine ⟨?_, ?_, ?_⟩
  · intro d r h
    rw [calculate_lri_ok d r h]
    simp [isHardStop, AL_H, AL_V]
    tauto
  · intro d h1 h2 h3 h4
    have hC : ¬(d.CTBT < 235) := not_lt.mpr h3
    have hV : ¬((50 : ℚ) < d.VPL) := not_lt.mpr h2
    simp only [isHardStop, AL_H, AL_V, Bool.or_eq_false_iff,
      Bool.and_eq_false_iff, decide_eq_false_iff_not]
    exact ⟨⟨hC, Or.inr hV⟩, by tauto⟩
  · intro d r hC h
    have hhs : isHardStop d = true := by
      simp only [isHardStop, hC]
      norm_num
    rw [calculate_lri_ok d r h]
    exact ⟨hhs, by rw [hhs]; rfl⟩

/-- C2 witness: the theorem applied to the record with HPL 45, VPL 50,
CTBT 273 and small anomaly values shows it does not hard-stop. -/
theorem hard_stop_characterization_witness : isHardStop onlyHPLRec = false :=
  hard_stop_characterization.2.1 onlyHPLRec (by norm_num [onlyHPLRec])
    (by norm_num [onlyHPLRec]) (by norm_num [onlyHPLRec])
    (by norm_num [onlyHPLRec])

/-- C3 counterexample: on zeroDenRec the required visibility is 11, W is
-900/11 and N is 100 — all nonzero, so the claim as stated promises a
complete result — yet the harmonic denominator 0.45/W + 0.35/N +
0.20/T_safe is exactly 0 and line 69 of back.py raises ZeroDivisionError,
so the scorer returns nothing. -/
theorem scorer_formula_counterexample :
    zeroDenRec.required_visibility ≠ 0 ∧ Wval zeroDenRec ≠ 0 ∧
      Nval zeroDenRec ≠ 0 ∧ calculate_lri zeroDenRec = Except.error () := by
  refine ⟨by norm_num [zeroDenRec], ?_, ?_, ?_⟩
  · norm_num [Wval, zeroDenRec]
  · norm_num [Nval, AL_H, AL_V, zeroDenRec]
  · norm_num [calculate_lri, Wval, Nval, Sval, Tval, Tnorm, Tsafe,
      W_W, W_N, W_T, AL_H, AL_V, zeroDenRec]

/-- C3 amended: for every record on which no division by zero occurs —
required_visibility, W, N, and additionally the harmonic denominator
0.45/W + 0.35/N + 0.20/T_safe all nonzero — the scorer returns exactly
W = 100*min(1, actual/required)*(1 - alpha_cloud), N = 100 -
(50*max(0,(HPL-40)/20) + 50*max(0,(VPL-50)/20)), T = 100*0.20*
(1 - alpha_terrain) - 40*r_och_neg, T_safe = max(5, T/0.20), and LRI =
min(100, 100/(0.45/W + 0.35/N + 0.20/T_safe)) rounded to 2 decimals, with
W_score, N_score, T_score the sub-scores rounded to 2 decimals. -/
theorem scorer_formula_amended (d : Record)
    (h1 : d.required_visibility ≠ 0) (h2 : Wval d ≠ 0) (h3 : Nval d ≠ 0)
    (h4 : Sval d ≠ 0) :
    calculate_lri d = Except.ok
      { LRI := round2 (min 100 (100 /
          ((45 : ℚ)/100 / Wval d + (35 : ℚ)/100 / Nval d + (20 : ℚ)/100 / Tsafe d)))
        Grade := gradeOf (isHardStop d) (round2 (min 100 (100 /
          ((45 : ℚ)/100 / Wval d + (35 : ℚ)/100 / Nval d + (20 : ℚ)/100 / Tsafe d))))
        W_score := round2 (Wval d)
        N_score := round2 (Nval d)
        T_score := round2 (Tval d)
        HardStop := isHardStop d } ∧
    Wval d = 100 * min 1 (d.actual_visibility / d.required_visibility) *
      (1 - d.alpha_cloud) ∧
    Nval d = 100 - (50 * max 0 ((d.HPL - 40) / 20) +
      50 * max 0 ((d.VPL - 50) / 20)) ∧
    Tval d = 100 * ((20 : ℚ)/100) * (1 - d.alpha_terrain) - 40 * d.r_och_neg ∧
    Tsafe d = max 5 (Tval d / ((20 : ℚ)/100)) := by
  refine ⟨?_, rfl, rfl, rfl, ?_⟩
  · unfold calculate_lri
    rw [if_neg h1, if_neg h2, if_neg h3, if_neg h4]
    rfl
  · norm_num [Tsafe, Tnorm, W_T]

/-- C3 witness: the amended theorem applied to the all-defaults record,
whose sub-scores are W = 90, N = 100, T = 19. -/
theorem scorer_formula_amended_witness :
    calculate_lri defaultRec = Except.ok
      { LRI := round2 (min 100 (100 /
          ((45 : ℚ)/100 / Wval defaultRec + (35 : ℚ)/100 / Nval defaultRec +
            (20 : ℚ)/100 / Tsafe defaultRec)))
        Grade := gradeOf (isHardStop defaultRec) (round2 (min 100 (100 /
          ((45 : ℚ)/100 / Wval defaultRec + (35 : ℚ)/100 / Nval defaultRec +
            (20 : ℚ)/100 / Tsafe defaultRec))))
        W_score := round2 (Wval defaultRec)
        N_score := round2 (Nval defaultRec)
        T_score := round2 (Tval defaultRec)
        HardStop := isHardStop defaultRec } :=
  (scorer_formula_amended defaultRec (by norm_num [defaultRec])
    (by norm_num [Wval, defaultRec])
    (by norm_num [Nval, AL_H, AL_V, defaultRec])
    (by norm_num [Sval, Wval, Nval, Tsafe, Tnorm, Tval,
      W_W, W_N, W_T, AL_H, AL_V, defaultRec])).1

/-- C4 counterexample: the record with actual_visibility -1 (all other
fields at their defaults) causes no division by zero — required
visibility is 30, W is -3, N is 100 — yet the returned LRI is -692.55,
far outside [0, 100]. -/
theorem lri_range_counterexample :
    okLRI (calculate_lri negVisRec) = some (-(69255 : ℚ)/100) ∧
      negVisRec.required_visibility ≠ 0 ∧ Wval negVisRec ≠ 0 ∧
      Nval negVisRec ≠ 0 ∧ (-(69255 : ℚ)/100) < 0 := by
  refine ⟨?_, by norm_num [negVisRec], ?_, ?_, by norm_num⟩
  · norm_num [okLRI, calculate_lri, Wval, Nval, Sval, Tval, Tnorm, Tsafe,
      lriRaw, lriFinal, round2, roundHalfEven, W_W, W_N, W_T, AL_H, AL_V,
      negVisRec]
  · norm_num [Wval, negVisRec]
  · norm_num [Nval, AL_H, AL_V, negVisRec]

/-- C4 amended: every result the scorer returns has LRI at most 100 after
rounding, and when the sub-scores W and N are strictly positive (and
required_visibility is nonzero) the scorer returns a result whose LRI
lies in the closed interval [0, 100]. -/
theorem lri_range_amended :
    (∀ d r, calculate_lri d = Except.ok r → r.LRI ≤ 100) ∧
    (∀ d : Record, d.required_visibility ≠ 0 → 0 < Wval d → 0 < Nval d →
      ∃ r, calculate_lri d = Except.ok r ∧ 0 ≤ r.LRI ∧ r.LRI ≤ 100) := by
  constructor
  · intro d r h
    rw [calculate_lri_ok d r h]
    show lriFinal d ≤ 100
    exact round2_le_100 (min_le_left _ _)
  · intro d h1 hW hN
    have hW0 : Wval d ≠ 0 := ne_of_gt hW
    have hN0 : Nval d ≠ 0 := ne_of_gt hN
    have hT : (0 : ℚ) < Tsafe d :=
      lt_of_lt_of_le (by norm_num) (le_max_left 5 (Tnorm d))
    have hS : 0 < Sval d := by
      have a1 : 0 < W_W / Wval d := div_pos (by norm_num [W_W]) hW
      have a2 : 0 < W_N / Nval d := div_pos (by norm_num [W_N]) hN
      have a3 : 0 < W_T / Tsafe d := div_pos (by norm_num [W_T]) hT
      unfold Sval
      linarith
    have hS0 : Sval d ≠ 0 := ne_of_gt hS
    have hraw : 0 < lriRaw d := div_pos (by norm_num) hS
    have hok : calculate_lri d = Except.ok
        { LRI := lriFinal d
          Grade := gradeOf (isHardStop d) (lriFinal d)
          W_score := round2 (Wval d)
          N_score := round2 (Nval d)
          T_score := round2 (Tval d)
          HardStop := isHardStop d } := by
      unfold calculate_lri
      rw [if_neg h1, if_neg hW0, if_neg hN0, if_neg hS0]
    refine ⟨_, hok, ?_, ?_⟩
    · show 0 ≤ lriFinal d
      exact round2_nonneg (le_min (by norm_num) hraw.le)
    · show lriFinal d ≤ 100
      exact round2_le_100 (min_le_left _ _)

/-- C4 witness: the amended theorem applied to the all-defaults record,
whose W = 90 and N = 100 are positive. -/
theorem lri_range_amended_witness :
    ∃ r, calculate_lri defaultRec = Except.ok r ∧ 0 ≤ r.LRI ∧ r.LRI ≤ 100 :=
  lri_range_amended.2 defaultRec (by norm_num [defaultRec])
    (by norm_num [Wval, defaultRec])
    (by norm_num [Nval, AL_H, AL_V, defaultRec])

/-- C5 counterexample: on the spec's end-to-end example record the scorer
returns LRI = 100 exactly — the unclamped harmonic expression is about
9979.84, so min(100, ...) clamps — and 100 is not approximately 99.75:
they differ by at least 0.25. -/
theorem example_record_counterexample :
    okLRI (calculate_lri exampleRec) = some 100 ∧
      (9975 : ℚ)/100 + 1/4 ≤ 100 ∧ (100 : ℚ) ≠ 9975/100 := by
  refine ⟨?_, by norm_num, by norm_num⟩
  norm_num [okLRI, calculate_lri, Wval, Nval, Sval, Tval, Tnorm, Tsafe,
    lriRaw, lriFinal, round2, roundHalfEven, W_W, W_N, W_T, AL_H, AL_V,
    exampleRec]

/-- C5 amended: on the record of the end-to-end example the scorer
returns W = 100, N = 100 (limits met exactly incur zero penalty),
T = 19.8, uses T_safe = 99, and returns LRI = min(100,
100/(0.45/100 + 0.35/100 + 0.20/99)) rounded to two decimals, which is
exactly 100.00 (not 99.75: the min clamps); hard-stop is false and the
grade is the best tier. -/
theorem example_record_amended :
    calculate_lri exampleRec = Except.ok
      { LRI := 100, Grade := "GREEN (VERY GOOD)", W_score := 100
        N_score := 100, T_score := 99/5, HardStop := false } ∧
    Tsafe exampleRec = 99 ∧
    round2 (min 100 (100 /
      ((45 : ℚ)/100/100 + (35 : ℚ)/100/100 + (20 : ℚ)/100/99))) = 100 := by
  refine ⟨?_, ?_, ?_⟩
  · norm_num [calculate_lri, Wval, Nval, Sval, Tval, Tnorm, Tsafe, lriRaw,
      lriFinal, round2, roundHalfEven, isHardStop, gradeOf, W_W, W_N, W_T,
      AL_H, AL_V, TAU_RED, TAU_YELLOW, exampleRec]
  · norm_num [Tsafe, Tnorm, Tval, W_T, exampleRec]
  · norm_num [round2, roundHalfEven]

/-- C6 counterexample: on zeroDenRec2 the required visibility, W and N
are all nonzero, so the record is outside the claimed failure class, yet
the scorer raises (the harmonic denominator is exactly 0 at line 69 of
back.py) and returns no result. -/
theorem error_handling_counterexample :
    zeroDenRec2.required_visibility ≠ 0 ∧ Wval zeroDenRec2 ≠ 0 ∧
      Nval zeroDenRec2 ≠ 0 ∧ calculate_lri zeroDenRec2 = Except.error () := by
  refine ⟨by norm_num [zeroDenRec2], ?_, ?_, ?_⟩
  · norm_num [Wval, zeroDenRec2]
  · norm_num [Nval, AL_H, AL_V, zeroDenRec2]
  · norm_num [calculate_lri, Wval, Nval, Sval, Tval, Tnorm, Tsafe,
      W_W, W_N, W_T, AL_H, AL_V, zeroDenRec2]

/-- C6 amended: the scorer is a total function with no fallback value: it
raises the generic failure exactly when required_visibility = 0, or a
computed sub-score W or N is exactly 0, or the harmonic denominator
0.45/W + 0.35/N + 0.20/T_safe is exactly 0; on every other record it
returns a complete ScoreResult.  No input validation happens before
computing. -/
theorem error_handling_amended (d : Record) :
    (calculate_lri d = Except.error () ↔
      d.required_visibility = 0 ∨ Wval d = 0 ∨ Nval d = 0 ∨ Sval d = 0) ∧
    (d.required_visibility ≠ 0 → Wval d ≠ 0 → Nval d ≠ 0 → Sval d ≠ 0 →
      ∃ r, calculate_lri d = Except.ok r) := by
  unfold calculate_lri
  split_ifs with h1 h2 h3 h4
  · exact ⟨by simp [h1], fun ha _ _ _ => absurd h1 ha⟩
  · exact ⟨by simp [h2], fun _ hb _ _ => absurd h2 hb⟩
  · exact ⟨by simp [h3], fun _ _ hc _ => absurd h3 hc⟩
  · exact ⟨by simp [h4], fun _ _ _ hd => absurd h4 hd⟩
  · exact ⟨by simp [h1, h2, h3, h4], fun _ _ _ _ => ⟨_, rfl⟩⟩

/-- C6 witness: the amended theorem applied to the record with
required_visibility 0 shows the scorer raises on it. -/
theorem error_handling_amended_witness :
    calculate_lri zeroReqRec = Except.error () :=
  (error_handling_amended zeroReqRec).1.mpr (Or.inl rfl)

/- Grid decay lemmas. -/

lemma centerOffset_odd (k : ℕ) : centerOffset (2 * k + 1) = (k : ℝ) := by
  unfold centerOffset
  push_cast
  ring

lemma corner_cell (cs lat lon lri : ℝ) (k i j : ℕ) (hk : 0 < k)
    (hi : ((i : ℝ) - (k : ℝ)) ^ 2 = (k : ℝ) ^ 2)
    (hj : ((j : ℝ) - (k : ℝ)) ^ 2 = (k : ℝ) ^ 2) :
    (gridCellOf (2 * k + 1) cs lat lon lri i j).lri = 0 := by
  have hkpos : (0 : ℝ) < (k : ℝ) := by exact_mod_cast hk
  have hs : Real.sqrt (2 * (k : ℝ) ^ 2) ≠ 0 := by
    rw [Real.sqrt_ne_zero']
    positivity
  simp only [gridCellOf, centerOffset_odd]
  rw [hi, hj]
  have harg : (k : ℝ) ^ 2 + (k : ℝ) ^ 2 = 2 * (k : ℝ) ^ 2 := by ring
  rw [harg, div_self hs]
  norm_num

/-- C7: for an odd grid of size 2k+1 with positive center offset k, every
cell of the decay grid has value lri * max(0, 1 - distance/max_dist),
where distance is the Euclidean distance of the cell's integer offset
from the center and max_dist = sqrt(2 * k^2); the center cell yields
exactly lri and each of the four corner cells yields exactly 0. -/
theorem grid_decay_spec (cs lat lon lri : ℝ) (k : ℕ) (hk : 0 < k) :
    (∀ i j : ℕ, i < 2 * k + 1 → j < 2 * k + 1 →
      (gridCellOf (2 * k + 1) cs lat lon lri i j).lri =
        lri * max 0 (1 - Real.sqrt (((i : ℝ) - k) ^ 2 + ((j : ℝ) - k) ^ 2) /
          Real.sqrt (2 * (k : ℝ) ^ 2))) ∧
    (gridCellOf (2 * k + 1) cs lat lon lri k k).lri = lri ∧
    (gridCellOf (2 * k + 1) cs lat lon lri 0 0).lri = 0 ∧
    (gridCellOf (2 * k + 1) cs lat lon lri 0 (2 * k)).lri = 0 ∧
    (gridCellOf (2 * k + 1) cs lat lon lri (2 * k) 0).lri = 0 ∧
    (gridCellOf (2 * k + 1) cs lat lon lri (2 * k) (2 * k)).lri = 0 := by
  have h2k : ((2 * k : ℕ) : ℝ) - (k : ℝ) = (k : ℝ) := by push_cast; ring
  have h0k : ((0 : ℕ) : ℝ) - (k : ℝ) = -(k : ℝ) := by push_cast; ring
  refine ⟨?_, ?_, ?_, ?_, ?_, ?_⟩
  · intro i j _ _
    simp only [gridCellOf, centerOffset_odd]
  · simp only [gridCellOf, centerOffset_odd]
    norm_num [Real.sqrt_zero]
  · exact corner_cell cs lat lon lri k 0 0 hk (by rw [h0k]; ring)
      (by rw [h0k]; ring)
  · exact corner_cell cs lat lon lri k 0 (2 * k) hk (by rw [h0k]; ring)
      (by rw [h2k])
  · exact corner_cell cs lat lon lri k (2 * k) 0 hk (by rw [h2k])
      (by rw [h0k]; ring)
  · exact corner_cell cs lat lon lri k (2 * k) (2 * k) hk (by rw [h2k])
      (by rw [h2k])

/-- C7 witness: the theorem applied to the 11 by 11 grid used by the
lri_grid endpoint with center value 42: the center cell keeps value 42. -/
theorem grid_decay_spec_witness :
    (gridCellOf 11 (1/100) 0 0 42 5 5).lri = 42 :=
  (grid_decay_spec (1/100) 0 0 42 5 (by norm_num)).2.1

/- Safer-spot search: characterization of the scan loop. -/

lemma saferFold_char (score : ℚ → ℚ → ScoreResult) (lat lon : ℚ) :
    ∀ (L : List (ℤ × ℤ)) (b : Option Spot) (h : ℚ),
      (L.foldl (saferStep score lat lon) (b, h) = (b, h) ∧
        ∀ ij ∈ L, (scoreAt score lat lon ij).HardStop = true ∨
          (scoreAt score lat lon ij).LRI ≤ h) ∨
      (∃ ij ∈ L, (scoreAt score lat lon ij).HardStop = false ∧
        h < (scoreAt score lat lon ij).LRI ∧
        L.foldl (saferStep score lat lon) (b, h) =
          (some (spotAt score lat lon ij), (scoreAt score lat lon ij).LRI) ∧
        ∀ ij2 ∈ L, (scoreAt score lat lon ij2).HardStop = false →
          (scoreAt score lat lon ij2).LRI ≤ (scoreAt score lat lon ij).LRI) := by
  intro L
  induction L with
  | nil =>
    intro b h
    exact Or.inl ⟨rfl, by simp⟩
  | cons ij0 L ih =>
    intro b h
    rw [List.foldl_cons]
    by_cases hc : (scoreAt score lat lon ij0).HardStop = false ∧
        h < (scoreAt score lat lon ij0).LRI
    · have hstep : saferStep score lat lon (b, h) ij0 =
          (some (spotAt score lat lon ij0), (scoreAt score lat lon ij0).LRI) := by
        unfold saferStep
        rw [if_pos hc]
      rw [hstep]
      rcases ih (some (spotAt score lat lon ij0))
          ((scoreAt score lat lon ij0).LRI) with
        ⟨heq, hbd⟩ | ⟨ij2, hmem, hhs, hlt, heq, hbd⟩
      · refine Or.inr ⟨ij0, List.mem_cons_self ij0 L, hc.1, hc.2, heq, ?_⟩
        intro ij3 hm hh3
        rcases List.mem_cons.mp hm with h3 | hm3
        · subst h3
          exact le_refl _
        · rcases hbd ij3 hm3 with hx | hx
          · rw [hh3] at hx
            exact absurd hx Bool.false_ne_true
          · exact hx
      · refine Or.inr ⟨ij2, List.mem_cons_of_mem ij0 hmem, hhs,
          lt_trans hc.2 hlt, heq, ?_⟩
        intro ij3 hm hh3
        rcases List.mem_cons.mp hm with h3 | hm3
        · subst h3
          exact le_of_lt hlt
        · exact hbd ij3 hm3 hh3
    · have hstep : saferStep score lat lon (b, h) ij0 = (b, h) := by
        unfold saferStep
        rw [if_neg hc]
      rw [hstep]
      have hfail : (scoreAt score lat lon ij0).HardStop = true ∨
          (scoreAt score lat lon ij0).LRI ≤ h := by
        by_cases hb : (scoreAt score lat lon ij0).HardStop = false
        · right
          by_contra hgt
          push_neg at hgt
          exact hc ⟨hb, hgt⟩
        · left
          rcases Bool.eq_false_or_eq_true (scoreAt score lat lon ij0).HardStop
            with hx | hx
          · exact hx
          · exact absurd hx hb
      rcases ih b h with ⟨heq, hbd⟩ | ⟨ij2, hmem, hhs, hlt, heq, hbd⟩
      · refine Or.inl ⟨heq, ?_⟩
        intro ij3 hm
        rcases List.mem_cons.mp hm with h3 | hm3
        · subst h3
          exact hfail
        · exact hbd ij3 hm3
      · refine Or.inr ⟨ij2, List.mem_cons_of_mem ij0 hmem, hhs, hlt, heq, ?_⟩
        intro ij3 hm hh3
        rcases List.mem_cons.mp hm with h3 | hm3
        · subst h3
          rcases hfail with hx | hx
          · rw [hh3] at hx
            exact absurd hx Bool.false_ne_true
          · exact le_trans hx (le_of_lt hlt)
        · exact hbd ij3 hm3 hh3

/-- C8 counterexample: with the neighborhood scoring cscore the neighbor
at offset (1, 0) is at LRI 82, at or above the best-tier threshold 80 and
not a hard stop, so under the claimed contract the search should suggest
a spot; but the center LRI is 85 and the code requires a strict LRI
improvement over the center, so the search returns none.  The selection
is also a deterministic fold, not a uniformly random draw. -/
theorem safer_spot_counterexample :
    findSaferSpot cscore 0 0 85 = none ∧
    (1, 0) ∈ searchOffsets ∧
    (scoreAt cscore 0 0 (1, 0)).HardStop = false ∧
    (80 : ℚ) ≤ (scoreAt cscore 0 0 (1, 0)).LRI := by
  refine ⟨?_, by norm_num [searchOffsets], ?_, ?_⟩
  · norm_num [findSaferSpot, searchOffsets, saferStep, scoreAt, spotAt,
      nbrLat, nbrLon, cscore]
  · norm_num [scoreAt, nbrLat, nbrLon, cscore]
  · norm_num [scoreAt, nbrLat, nbrLon, cscore]

/-- C8 amended: the safer-spot search scans the fixed 3x3 neighborhood of
offsets of 0.2 degrees (excluding the center) and deterministically
returns the candidate with the highest LRI among the neighbors that are
not hard stops and whose LRI strictly exceeds the center LRI (ties kept
by earliest scan order), or none when no neighbor qualifies; it has no
randomness and no preference for cells at or above the best-tier
threshold. -/
theorem safer_spot_amended (score : ℚ → ℚ → ScoreResult) (lat lon lri : ℚ) :
    (findSaferSpot score lat lon lri = none →
      ∀ ij ∈ searchOffsets, (scoreAt score lat lon ij).HardStop = true ∨
        (scoreAt score lat lon ij).LRI ≤ lri) ∧
    (∀ s, findSaferSpot score lat lon lri = some s →
      ∃ ij ∈ searchOffsets, (scoreAt score lat lon ij).HardStop = false ∧
        lri < (scoreAt score lat lon ij).LRI ∧ s = spotAt score lat lon ij ∧
        ∀ ij2 ∈ searchOffsets, (scoreAt score lat lon ij2).HardStop = false →
          (scoreAt score lat lon ij2).LRI ≤ s.lri) := by
  rcases saferFold_char score lat lon searchOffsets none lri with
    ⟨heq, hbd⟩ | ⟨ij, hmem, hhs, hlt, heq, hbd⟩
  · constructor
    · intro _ ij hm
      exact hbd ij hm
    · intro s hs
      unfold findSaferSpot at hs
      rw [heq] at hs
      exact absurd hs (by simp)
  · constructor
    · intro hnone
      unfold findSaferSpot at hnone
      rw [heq] at hnone
      exact absurd hnone (by simp)
    · intro s hs
      unfold findSaferSpot at hs
      rw [heq] at hs
      simp only [Option.some.injEq] at hs
      refine ⟨ij, hmem, hhs, hlt, hs.symm, ?_⟩
      intro ij2 hm2 hh2
      have : s.lri = (scoreAt score lat lon ij).LRI := by
        rw [hs.symm]
        rfl
      rw [this]
      exact hbd ij2 hm2 hh2

/-- C8 witness: with every neighbor scoring LRI 90 without hard stop and
center LRI 50, the search returns the first-scanned neighbor at offsets
(-0.2, -0.2) with LRI 90, maximal among all qualifying neighbors. -/
theorem safer_spot_amended_witness :
    ∃ ij ∈ searchOffsets, (scoreAt wscore 0 0 ij).HardStop = false ∧
      (50 : ℚ) < (scoreAt wscore 0 0 ij).LRI ∧
      (⟨-(1/5), -(1/5), 90⟩ : Spot) = spotAt wscore 0 0 ij ∧
      ∀ ij2 ∈ searchOffsets, (scoreAt wscore 0 0 ij2).HardStop = false →
        (scoreAt wscore 0 0 ij2).LRI ≤ Spot.lri ⟨-(1/5), -(1/5), 90⟩ :=
  (safer_spot_amended wscore 0 0 50).2 ⟨-(1/5), -(1/5), 90⟩ (by
    norm_num [findSaferSpot, searchOffsets, saferStep, scoreAt, spotAt,
      nbrLat, nbrLon, wscore])

/-- C9: scoring is deterministic: with the same simulator environment,
two requests with identical latitude, longitude, uam_type and wing_type
produce the identical MeasurementRecord from the coordinate-seeded
simulator and hence the identical ScoreResult, since the request result
is exactly calculate_lri applied to the generated record. -/
theorem score_determinism (env : SimEnv) (lat lon : ℚ) (uam wing : String) :
    generateData env lat lon ⟨uam, wing⟩ = generateData env lat lon ⟨uam, wing⟩ ∧
    scoreRequest env lat lon uam wing = scoreRequest env lat lon uam wing ∧
    scoreRequest env lat lon uam wing =
      calculate_lri (generateData env lat lon ⟨uam, wing⟩) :=
  ⟨rfl, rfl, rfl⟩

/-- C10: the choropleth grid computation inlined in the map endpoint is
an exact clone of the grid endpoint's computation: for equal coordinates,
center LRI and grid parameters it produces, cell by cell, the same
decayed LRI value and the same closed 5-point polygon; the two inlined
copies differ only in the hardcoded grid size (7 in the map endpoint,
11 in the grid endpoint), with cell size 0.01 degrees in both. -/
theorem map_grid_clone :
    (∀ (g : ℕ) (cs lat lon lri : ℝ) (i j : ℕ),
      mapCellOf g cs lat lon lri i j = gridCellOf g cs lat lon lri i j) ∧
    (∀ (g : ℕ) (cs lat lon lri : ℝ),
      mapFeatures g cs lat lon lri = gridFeatures g cs lat lon lri) ∧
    mapGridSize = 7 ∧ gridEndpointGridSize = 11 ∧
    mapCellSize = gridEndpointCellSize :=
  ⟨fun _ _ _ _ _ _ _ => rfl, fun _ _ _ _ _ => rfl, rfl, rfl, rfl⟩

end Aerosafers
